import Mathlib

/-!
Verification of the suggestion-engine core of the `suggest` repository.

The repository bundles an application component (`App`), a `types` module and
two revisions of `services/geminiService`: revision A carries Google-Search
grounding and citation extraction, revision B carries a declared
`searchDrive` function tool and a single-hop tool round-trip.  Both revisions
are embedded below (`routeA`/`executeSuggestionA` and
`routeB`/`executeSuggestionB`); the application handlers are embedded as
state transformers that additionally emit the ordered trace of observable
events (engine-state writes, provider calls, message appends).

Modelling conventions:
* provider calls are represented by their outcome (`Except`), passed in as
  data, so the embedded functions are total and executable;
* JavaScript truthiness on optional strings (`x || d`) is `jsOr`;
* `crypto.randomUUID()` and `Date.now()` are modelled by a fresh-id counter
  threaded through `AppState` and a constant clock — no claim inspects them;
* optional chains such as `candidates?.[0]?.content?.parts?.[0]?.functionCall`
  are collapsed into a single `Option` field of `GenResponse`;
* the indentation padding inside the source template literals is elided;
  the line texts themselves are kept.
-/

namespace Suggest

/-- `types.ts`: a citation record `{title, uri}` (called `sourceUrls` entries). -/
structure SourceUrl where
  title : String
  uri : String
deriving Repr, DecidableEq

/-- `types.ts`: `Message.metadata`. -/
structure MessageMetadata where
  suggestionType : Option String := none
  executionTime : Option Nat := none
  modelUsed : Option String := none
  sourceUrls : Option (List SourceUrl) := none
deriving Repr, DecidableEq

/-- `types.ts`: `Message`.  `role` is one of `"user" | "model" | "system"`. -/
structure Message where
  id : String
  role : String
  content : String
  timestamp : Nat
  type : Option String := none
  metadata : Option MessageMetadata := none
deriving Repr, DecidableEq

/-- `types.ts`: `Suggestion`.  At runtime `type` is the string the provider
produced, so it is modelled as `String`; the six legal values are
`suggestionTypeEnum`. -/
structure Suggestion where
  id : String
  type : String
  title : String
  description : String
  reasoning : String
  confidence : Rat
deriving Repr, DecidableEq

/-- `types.ts`: `AnalysisResult`. -/
structure AnalysisResult where
  patternsDetected : List String
  historyDepth : String
  contextContinuity : String
  dialecticalOpportunity : String
  suggestions : List Suggestion
deriving Repr, DecidableEq

/-- `types.ts`: `AnalysisLogEntry`. -/
structure AnalysisLogEntry where
  id : String
  timestamp : Nat
  message : String
  type : String
deriving Repr, DecidableEq

/-- `types.ts`: `EngineState`. -/
structure EngineState where
  isActive : Bool
  isAnalyzing : Bool
  isExecuting : Bool
  logs : List AnalysisLogEntry
  currentSuggestions : List Suggestion
deriving Repr, DecidableEq

/-- Provider interface: the single function call the executor inspects at
`candidates[0].content.parts[0].functionCall`. -/
structure FunctionCall where
  name : String
deriving Repr, DecidableEq

/-- Provider interface: `groundingChunks[i].web` with its optional `uri` and
`title`. -/
structure GroundingWeb where
  uri : Option String := none
  title : Option String := none
deriving Repr, DecidableEq

/-- Provider interface: one grounding chunk. -/
structure GroundingChunk where
  web : Option GroundingWeb := none
deriving Repr, DecidableEq

/-- Logical shape of a provider response as consumed by the services:
`text`, the first candidate's first-part function call, and the first
candidate's grounding chunks (optional chains collapsed). -/
structure GenResponse where
  text : Option String := none
  functionCall : Option FunctionCall := none
  groundingChunks : Option (List GroundingChunk) := none
deriving Repr, DecidableEq

/-- Tools that can appear in a request config: revision A passes
`[{googleSearch: {}}]`, revision B passes
`[{functionDeclarations: [searchDrive]}]` (a declaration is kept by name). -/
inductive Tool where
  | googleSearch : Tool
  | functionDeclarations (names : List String) : Tool
deriving Repr, DecidableEq

/-- Request config as assembled by the services (the fields any branch sets). -/
structure GenConfig where
  systemInstruction : Option String := none
  responseMimeType : Option String := none
  temperature : Option Rat := none
  tools : Option (List Tool) := none
  thinkingBudget : Option Nat := none
deriving Repr, DecidableEq

/-- One outbound provider request: `{model, contents, config}`. -/
structure GenRequest where
  model : String
  contents : String
  config : GenConfig
deriving Repr, DecidableEq

/-- JavaScript `s.trim()`: strips whitespace from both ends (executable
model of `String.trim`, which does not reduce in the kernel). -/
def jsTrim (s : String) : String :=
  String.mk
    (((s.data.dropWhile Char.isWhitespace).reverse.dropWhile
        Char.isWhitespace).reverse)

/-- JavaScript `t || d` on an optional string: an absent or empty string is
falsy, so it yields the default. -/
def jsOr (t : Option String) (d : String) : String :=
  match t with
  | none => d
  | some s => if s = "" then d else s

/-- The six-member category enum of `analysisSchema.properties.suggestions
.items.properties.type.enum`. -/
def suggestionTypeEnum : List String :=
  ["Clarify", "Expand", "Create", "Connect", "Challenge", "Crystallize"]

/-- `analysisSchema.properties.historyDepth.enum`. -/
def historyDepthEnum : List String :=
  ["shallow", "medium", "deep"]

/-- `analysisSchema` as a checkable predicate on parsed payloads: the enum
constraints on `historyDepth` and each suggestion's `type`.  The schema puts
no length bound and no distinctness condition on `suggestions` (it is a plain
`ARRAY`), and the required keys are structural fields here. -/
def conformsAnalysisSchema (r : AnalysisResult) : Bool :=
  historyDepthEnum.contains r.historyDepth &&
  r.suggestions.all (fun sg => suggestionTypeEnum.contains sg.type)

/-- One serialized history line of `analyzeContext`:
`${m.role.toUpperCase()}: ${m.content}`. -/
def historyLineUC (m : Message) : String :=
  m.role.toUpper ++ ": " ++ m.content

/-- The analysis prompt built by `analyzeContext` (lines 363-364 of the
service). -/
def fullPrompt (history : List Message) (lastInput : String) : String :=
  "HISTORY:\n" ++ String.intercalate "\n" (history.map historyLineUC) ++
  "\n\nNEW INPUT:\nUSER: " ++ lastInput ++
  "\n\nAnalyze this context and generate suggestions."

/-- What the analysis provider call yields, at the boundary the code
observes: the call throws (unreachable provider), or returns a response whose
`text` is absent/empty, or text that `JSON.parse` rejects, or text that
parses to a payload. -/
inductive AnalysisOutcome where
  | unreachable (message : String) : AnalysisOutcome
  | noText : AnalysisOutcome
  | unparsable (raw : String) : AnalysisOutcome
  | parsed (r : AnalysisResult) : AnalysisOutcome
deriving Repr, DecidableEq

/-- `GeminiService.analyzeContext`, response side: rethrows a provider error,
throws `"No analysis generated"` on falsy `text`, propagates a `JSON.parse`
failure, and otherwise returns the parsed payload unchanged (the `as
AnalysisResult` cast performs no validation). -/
def analyzeContext (outcome : AnalysisOutcome) : Except String AnalysisResult :=
  match outcome with
  | .unreachable e => .error e
  | .noText => .error "No analysis generated"
  | .unparsable _ => .error "Unexpected token in JSON"
  | .parsed r => .ok r

/-- Routing table of revision A (`executeSuggestion`, lines 393-410): the
`model`/`config` assembly keyed on `suggestion.type` via `includes`. -/
def routeA (t : String) : GenConfig × String :=
  if ["Create", "Challenge", "Crystallize"].contains t then
    ({ temperature := some ((7 : Rat) / 10), thinkingBudget := some 32768 },
     "gemini-3-pro-preview")
  else if ["Expand", "Connect"].contains t then
    ({ temperature := some ((7 : Rat) / 10), tools := some [Tool.googleSearch] },
     "gemini-2.5-flash")
  else
    ({ temperature := some ((7 : Rat) / 10) }, "gemini-2.5-flash")

/-- Revision B: `const isComplex = ['Create', 'Challenge', 'Crystallize']
.includes(suggestion.type)`. -/
def isComplex (t : String) : Bool :=
  ["Create", "Challenge", "Crystallize"].contains t

/-- Revision B: `const needsSearch = suggestion.type === 'Expand' ||
suggestion.type === 'Connect'`. -/
def needsSearch (t : String) : Bool :=
  t == "Expand" || t == "Connect"

/-- Routing table of revision B (`executeSuggestion`, lines 571-591). -/
def routeB (t : String) : GenConfig × String :=
  if isComplex t then
    ({ temperature := some ((7 : Rat) / 10), thinkingBudget := some 32768 },
     "gemini-3-pro-preview")
  else if needsSearch t then
    ({ temperature := some ((7 : Rat) / 10),
       tools := some [Tool.functionDeclarations ["searchDrive"]] },
     "gemini-2.5-flash")
  else
    ({ temperature := some ((7 : Rat) / 10) }, "gemini-2.5-flash")

/-- Revision A's grounding extraction (lines 438-450): each chunk with a
truthy `web.uri` contributes `{title: chunk.web.title || "Source", uri}`;
the rest are skipped. -/
def extractSourceUrls (chunks : Option (List GroundingChunk)) : List SourceUrl :=
  match chunks with
  | none => []
  | some cs =>
    cs.foldl (fun acc chunk =>
      match chunk.web with
      | none => acc
      | some w =>
        match w.uri with
        | none => acc
        | some u =>
          if u = "" then acc
          else acc ++ [{ title := jsOr w.title "Source", uri := u }]) []

/-- Result shape of revision A's `executeSuggestion`. -/
structure ExecutionResultA where
  text : String
  modelUsed : String
  sourceUrls : Option (List SourceUrl) := none
deriving Repr, DecidableEq

/-- Revision A's `executeSuggestion`: one provider call; on a provider error
the fixed sentinel result; otherwise the response text with its generic
fallback, the routed model identifier, and the extracted citations with an
empty extraction rendered as an absent field. -/
def executeSuggestionA (sugg : Suggestion) (_history : List Message)
    (_lastInput : String) (providerOutcome : Except String GenResponse) :
    ExecutionResultA :=
  match providerOutcome with
  | .error _ =>
    { text := "Error executing suggestion. Please try again.", modelUsed := "error" }
  | .ok response =>
    let sourceUrls := extractSourceUrls response.groundingChunks
    { text := jsOr response.text "No response generated."
      modelUsed := (routeA sugg.type).2
      sourceUrls := if sourceUrls.length > 0 then some sourceUrls else none }

/-- Result shape of revision B's `executeSuggestion`. -/
structure ExecutionResultB where
  text : String
  modelUsed : String
deriving Repr, DecidableEq

/-- One context line of the task prompts: `${m.role}: ${m.content}`. -/
def historyLine (m : Message) : String :=
  m.role ++ ": " ++ m.content

/-- Revision B's task prompt (template literal, lines 593-608; indentation
padding elided). -/
def taskPromptB (sugg : Suggestion) (history : List Message)
    (lastInput : String) : String :=
  "\nTASK: Execute the following suggestion:\n" ++
  "Type: " ++ sugg.type ++ "\n" ++
  "Title: " ++ sugg.title ++ "\n" ++
  "Description: " ++ sugg.description ++ "\n" ++
  "\nCONTEXT:\n" ++
  String.intercalate "\n" (history.map historyLine) ++ "\n" ++
  "USER: " ++ lastInput ++ "\n" ++
  "\nINSTRUCTIONS:\n" ++
  "Perform the suggested action comprehensively. \n" ++
  "If the type is 'Create', provide the code or artifact clearly.\n" ++
  "If 'Challenge', be dialectical and offer the antithesis.\n" ++
  "If 'Crystallize', summarize the essence.\n"

/-- `JSON.stringify(mockFiles)` for the synthesized `searchDrive` result. -/
def mockFilesJson : String :=
  "[\x7b\"title\":\"Project Alpha Specs.pdf\",\"snippet\":\"Specs for the new engine...\"\x7d," ++
  "\x7b\"title\":\"Meeting Notes 2024.docx\",\"snippet\":\"Discussed Q4 goals...\"\x7d]"

/-- What the follow-up request appends to the task prompt (line 627). -/
def followUpSuffix : String :=
  "\n\nTOOL RESULT (searchDrive): Found files: " ++ mockFilesJson ++
  ". Incorporate this into your answer."

/-- The follow-up request's config (lines 632-635): tools are stripped, and
only a reduced thinking budget survives for the complex categories. -/
def followUpConfig (t : String) : GenConfig :=
  { thinkingBudget := if isComplex t then some 16000 else none }

/-- Revision B's `executeSuggestion` (lines 565-646).  The provider is a
stream of outcomes indexed by call number; the function also returns the
ordered list of requests it issued.  A first response carrying a
`searchDrive` function call triggers exactly one follow-up request (tool
options stripped); everything else is answered from the first response; any
provider error yields the fixed sentinel result. -/
def executeSuggestionB (sugg : Suggestion) (history : List Message)
    (lastInput : String) (provider : Nat → Except String GenResponse) :
    ExecutionResultB × List GenRequest :=
  let config := (routeB sugg.type).1
  let model := (routeB sugg.type).2
  let prompt := taskPromptB sugg history lastInput
  let req1 : GenRequest := { model := model, contents := prompt, config := config }
  match provider 0 with
  | .error _ =>
    ({ text := "Error executing suggestion. Please try again.", modelUsed := "error" },
     [req1])
  | .ok response =>
    match response.functionCall with
    | some fc =>
      if fc.name = "searchDrive" then
        let req2 : GenRequest :=
          { model := model, contents := prompt ++ followUpSuffix
            config := followUpConfig sugg.type }
        match provider 1 with
        | .error _ =>
          ({ text := "Error executing suggestion. Please try again.", modelUsed := "error" },
           [req1, req2])
        | .ok followUpResponse =>
          ({ text := jsOr followUpResponse.text "Error processing tool result."
             modelUsed := model }, [req1, req2])
      else
        ({ text := jsOr response.text "No response generated.", modelUsed := model },
         [req1])
    | none =>
      ({ text := jsOr response.text "No response generated.", modelUsed := model },
       [req1])

/-- The fixed suggestion `App.handleSendMessage` synthesizes on the
engine-off path (line 55). -/
def stdSuggestion : Suggestion :=
  { type := "Expand", title := "Reply", description := "Standard reply"
    reasoning := "Engine off", confidence := 1, id := "std" }

/-- App-level state: the conversation, the engine state, and the fresh-id
counter standing in for `crypto.randomUUID()`. -/
structure AppState where
  messages : List Message
  engineState : EngineState
  nextId : Nat
deriving Repr, DecidableEq

/-- Observable events of one handler run, in program order: each
`setEngineState` result, each provider call (the executor call carries the
suggestion passed), and each message appended to the conversation. -/
inductive AppEvent where
  | stateSet (s : EngineState) : AppEvent
  | analyzeCall : AppEvent
  | executeCall (sugg : Suggestion) : AppEvent
  | msgAppend (m : Message) : AppEvent
deriving Repr, DecidableEq

/-- A `setEngineState` call: returns the new app state and the event. -/
def setES (s : AppState) (f : EngineState → EngineState) : AppState × AppEvent :=
  let es := f s.engineState
  ({ s with engineState := es }, .stateSet es)

/-- `App.addLog`: appends one log entry (a state write). -/
def addLog (s : AppState) (message ty : String) : AppState × AppEvent :=
  let entry : AnalysisLogEntry :=
    { id := toString s.nextId, timestamp := 0, message := message, type := ty }
  let es := { s.engineState with logs := s.engineState.logs ++ [entry] }
  ({ s with nextId := s.nextId + 1, engineState := es }, .stateSet es)

/-- `analysis.patternsDetected.forEach(p => addLog(...))`. -/
def logPatterns (s : AppState) : List String → AppState × List AppEvent
  | [] => (s, [])
  | p :: ps =>
    ((logPatterns (addLog s ("Pattern: " ++ p) "pattern").1 ps).1,
     (addLog s ("Pattern: " ++ p) "pattern").2 ::
       (logPatterns (addLog s ("Pattern: " ++ p) "pattern").1 ps).2)

/-- `App.processWithEngine` (lines 75-102): enter the analyzing phase with a
cleared suggestion set, log, call the analyzer once, and either surface the
suggestions (success) or log a warning and end the phase (failure). -/
def processWithEngine (s0 : AppState) (_lastUserMessage : Message)
    (outcome : AnalysisOutcome) : AppState × List AppEvent :=
  let (s1, e1) := setES s0 (fun es =>
    { es with isAnalyzing := true, currentSuggestions := [] })
  let (s2, e2) := addLog s1 "Spore detected. Initiating substrate analysis..." "info"
  match analyzeContext outcome with
  | .ok analysis =>
    let (s3, patternEvents) := logPatterns s2 analysis.patternsDetected
    let (s4, e4) := addLog s3 ("History Depth: " ++ analysis.historyDepth) "info"
    let (s5, e5) := addLog s4
      ("Continuity: " ++ analysis.contextContinuity.take 50 ++ "...") "info"
    let (s6, e6) := setES s5 (fun es =>
      { es with isAnalyzing := false, currentSuggestions := analysis.suggestions })
    let (s7, e7) := addLog s6
      ("Generated " ++ toString analysis.suggestions.length ++ " potential growth paths.")
      "success"
    (s7, [e1, e2, .analyzeCall] ++ patternEvents ++ [e4, e5, e6, e7])
  | .error err =>
    let (s3, e3) := addLog s2 ("Analysis failed: " ++ err) "warning"
    let (s4, e4) := setES s3 (fun es => { es with isAnalyzing := false })
    (s4, [e1, e2, .analyzeCall, e3, e4])

/-- `App.handleSendMessage` (lines 34-73).  The guard drops blank input and
input sent while executing.  Otherwise the user message is appended; with the
engine active the analysis pipeline runs, and with it off a standard-reply
execution runs immediately.  `messagesRef.current` still holds the pre-append
list throughout the handler (React batches the state update), so the
pre-append list is what the executor receives as history. -/
def handleSendMessage (s0 : AppState) (input : String) (engineActive : Bool)
    (analysisOutcome : AnalysisOutcome)
    (execOutcome : Except String GenResponse) : AppState × List AppEvent :=
  if jsTrim input == "" || s0.engineState.isExecuting then (s0, [])
  else
    let userMsg : Message :=
      { id := toString s0.nextId, role := "user", content := input, timestamp := 0 }
    let refMessages := s0.messages
    let s1 : AppState :=
      { s0 with nextId := s0.nextId + 1, messages := s0.messages ++ [userMsg] }
    if engineActive then
      let (s2, es) := processWithEngine s1 userMsg analysisOutcome
      (s2, .msgAppend userMsg :: es)
    else
      let (s2, e2) := setES s1 (fun es => { es with isExecuting := true })
      let response := executeSuggestionA stdSuggestion refMessages userMsg.content execOutcome
      let modelMsg : Message :=
        { id := toString s2.nextId, role := "model", content := response.text
          timestamp := 0
          metadata := some { modelUsed := some response.modelUsed
                             sourceUrls := response.sourceUrls } }
      let s3 : AppState :=
        { s2 with nextId := s2.nextId + 1, messages := s2.messages ++ [modelMsg] }
      let (s4, e4) := setES s3 (fun es => { es with isExecuting := false })
      (s4, [.msgAppend userMsg, e2, .executeCall stdSuggestion, .msgAppend modelMsg, e4])

/-- `App.handleSuggestionClick` (lines 104-141): enter the executing phase
with the suggestion set cleared in the same state write, log, then run the
executor on the last message (indexing an empty conversation throws before
the executor is reached and is caught as an execution failure); the
`finally` clause always ends the executing phase. -/
def handleSuggestionClick (s0 : AppState) (suggestion : Suggestion)
    (execOutcome : Except String GenResponse) : AppState × List AppEvent :=
  let (s1, e1) := setES s0 (fun es =>
    { es with isExecuting := true, currentSuggestions := [] })
  let (s2, e2) := addLog s1
    ("Selected path: " ++ suggestion.type ++ " - " ++ suggestion.title) "success"
  let (s3, e3) := addLog s2 "Weaving response..." "info"
  match s3.messages.getLast? with
  | none =>
    let (s4, e4) := addLog s3 "Execution failed." "warning"
    let (s5, e5) := setES s4 (fun es => { es with isExecuting := false })
    (s5, [e1, e2, e3, e4, e5])
  | some lastMsg =>
    let history := s3.messages.dropLast
    let result := executeSuggestionA suggestion history lastMsg.content execOutcome
    let modelMsg : Message :=
      { id := toString s3.nextId, role := "model", content := result.text
        timestamp := 0
        metadata := some { suggestionType := some suggestion.type
                           modelUsed := some result.modelUsed
                           sourceUrls := result.sourceUrls } }
    let s4 : AppState :=
      { s3 with nextId := s3.nextId + 1, messages := s3.messages ++ [modelMsg] }
    let (s5, e5) := addLog s4 "Execution complete." "success"
    let (s6, e6) := setES s5 (fun es => { es with isExecuting := false })
    (s6, [e1, e2, e3, .executeCall suggestion, .msgAppend modelMsg, e5, e6])

/-- One pipeline operation, with the provider outcomes it will observe. -/
inductive Op where
  | send (input : String) (engineActive : Bool)
      (analysisOutcome : AnalysisOutcome)
      (execOutcome : Except String GenResponse) : Op
  | click (suggestion : Suggestion)
      (execOutcome : Except String GenResponse) : Op

/-- Run one operation. -/
def step (s : AppState) : Op → AppState × List AppEvent
  | .send input engineActive aOut eOut => handleSendMessage s input engineActive aOut eOut
  | .click sugg eOut => handleSuggestionClick s sugg eOut

/-- Run a sequence of operations (cooperative scheduling: one pipeline phase
at a time, each run to completion), collecting the full event trace. -/
def run (s : AppState) : List Op → List AppEvent
  | [] => []
  | op :: ops =>
    let (s1, es) := step s op
    es ++ run s1 ops

/-- The initial app state (lines 11-20). -/
def initialAppState : AppState :=
  { messages := [], nextId := 0
    engineState := { isActive := true, isAnalyzing := false, isExecuting := false
                     logs := [], currentSuggestions := [] } }

/-- Spec-side per-chunk citation map, following the specification's words:
a chunk having a uri yields `{title: chunk's title or the generic
placeholder, uri: chunk's uri}`; a chunk lacking a uri is dropped.  Absent
and empty strings are both JavaScript-falsy, hence both count as lacking /
missing. -/
def specCitation (chunk : GroundingChunk) : Option SourceUrl :=
  match chunk.web with
  | none => none
  | some w =>
    match w.uri with
    | none => none
    | some u =>
      if u = "" then none
      else some { title := jsOr w.title "Source", uri := u }

/-- The suggestions passed to the executor during a trace, in order. -/
def execCalls (events : List AppEvent) : List Suggestion :=
  events.filterMap (fun e =>
    match e with
    | .executeCall sg => some sg
    | _ => none)

/-- How many analyzer calls a trace contains. -/
def analyzeCalls (events : List AppEvent) : Nat :=
  (events.filter (fun e =>
    match e with
    | .analyzeCall => true
    | _ => false)).length

/-- A provider whose every response carries a `searchDrive` function call:
used to exhibit the tool round-trip on the degraded path. -/
def fcProvider : Nat → Except String GenResponse := fun _ =>
  .ok { text := some "grounded answer", functionCall := some { name := "searchDrive" } }

/-- A schema-conforming `Clarify` suggestion used in concrete payloads. -/
def clarifySuggestion : Suggestion :=
  { id := "s1", type := "Clarify", title := "t", description := "d"
    reasoning := "r", confidence := 1 }

/-- A provider payload that conforms to `analysisSchema` yet carries only two
suggestions, both of the same type: the schema bounds neither the count nor
the distinctness of `suggestions`. -/
def shortAnalysis : AnalysisResult :=
  { patternsDetected := ["Question"], historyDepth := "shallow"
    contextContinuity := "fresh", dialecticalOpportunity := ""
    suggestions := [clarifySuggestion, clarifySuggestion] }

/-- Routing-table row for `Create`/`Challenge`/`Crystallize`: the
deep-reasoning model with the fixed high thinking budget and no tools. -/
def proThinkingRow : GenConfig × String :=
  ({ temperature := some ((7 : Rat) / 10), thinkingBudget := some 32768 },
   "gemini-3-pro-preview")

/-- Routing-table row for `Expand`/`Connect` in revision A: the fast model
with Google Search enabled and no thinking budget. -/
def flashSearchRowA : GenConfig × String :=
  ({ temperature := some ((7 : Rat) / 10), tools := some [Tool.googleSearch] },
   "gemini-2.5-flash")

/-- Routing-table row for `Expand`/`Connect` in revision B: the fast model
with the declared `searchDrive` retrieval tool and no thinking budget. -/
def flashDriveRowB : GenConfig × String :=
  ({ temperature := some ((7 : Rat) / 10)
     tools := some [Tool.functionDeclarations ["searchDrive"]] },
   "gemini-2.5-flash")

/-- Routing-table row for `Clarify` and every unrecognized value: the fast
model with no tools and no thinking budget. -/
def flashPlainRow : GenConfig × String :=
  ({ temperature := some ((7 : Rat) / 10) }, "gemini-2.5-flash")

/-! ## Helper lemmas -/

lemma jsOr_ne_empty (t : Option String) (d : String) (hd : d ≠ "") :
    jsOr t d ≠ "" := by
  rcases t with _ | s
  · simpa [jsOr] using hd
  · by_cases hs : s = "" <;> simp [jsOr, hs, hd]

/-! ## Claim theorems -/

/-- C2: routing a suggestion's type to a model configuration is total and
deterministic over the six categories, in both service revisions: the types
`Create`, `Challenge`, `Crystallize` select the deep-reasoning model with a
non-null thinking budget and no tools; `Expand` and `Connect` select the fast
model with retrieval tools and no thinking budget; `Clarify` and every
unrecognized value select the fast model with no tools and no budget. -/
theorem route_totality (t : String) :
    ((["Create", "Challenge", "Crystallize"].contains t = true →
        routeA t = proThinkingRow ∧ routeB t = proThinkingRow) ∧
      ((t = "Expand" ∨ t = "Connect") →
        routeA t = flashSearchRowA ∧ routeB t = flashDriveRowB) ∧
      (["Create", "Challenge", "Crystallize"].contains t = false →
        ¬(t = "Expand" ∨ t = "Connect") →
        routeA t = flashPlainRow ∧ routeB t = flashPlainRow)) := by
  refine ⟨fun h => ?_, fun h => ?_, fun h1 h2 => ?_⟩
  · have h3 : t = "Create" ∨ t = "Challenge" ∨ t = "Crystallize" := by
      simpa using h
    rcases h3 with rfl | rfl | rfl <;> exact ⟨rfl, rfl⟩
  · rcases h with rfl | rfl <;> exact ⟨rfl, rfl⟩
  · have h1' : ¬(["Create", "Challenge", "Crystallize"].contains t = true) := by
      simp only [h1]
      decide
    have h2a : ¬(["Expand", "Connect"].contains t = true) := by
      simpa using h2
    have h2b : ¬(needsSearch t = true) := by
      simpa [needsSearch] using h2
    have h1c : ¬(isComplex t = true) := by
      simpa [isComplex] using h1'
    constructor
    · simp only [routeA]
      rw [if_neg h1', if_neg h2a]
      rfl
    · simp only [routeB]
      rw [if_neg h1c, if_neg h2b]
      rfl

/-- Witness for C2 at the concrete types `"Create"`, `"Expand"` and the
unrecognized value `"Zzz"`. -/
theorem route_totality_witness :
    (routeA "Create" = proThinkingRow ∧ routeB "Create" = proThinkingRow) ∧
    (routeA "Expand" = flashSearchRowA ∧ routeB "Expand" = flashDriveRowB) ∧
    (routeA "Zzz" = flashPlainRow ∧ routeB "Zzz" = flashPlainRow) :=
  ⟨(route_totality "Create").1 rfl,
   (route_totality "Expand").2.1 (Or.inl rfl),
   (route_totality "Zzz").2.2 rfl (by rintro (h | h) <;> exact absurd h (by decide))⟩

/-- C3: both revisions of `executeSuggestion` are total over every input and
provider outcome and always yield a result with non-empty `text` and a
`modelUsed` value; any provider failure (including one during the tool hop)
yields the fixed error text with the sentinel `modelUsed = "error"`, and an
absent or empty provider answer yields the generic fallback string. -/
theorem executor_never_raises (sugg : Suggestion) (history : List Message)
    (lastInput : String) (po : Except String GenResponse)
    (provider : Nat → Except String GenResponse) :
    ((executeSuggestionA sugg history lastInput po).text ≠ "" ∧
      (∀ e, po = .error e →
        executeSuggestionA sugg history lastInput po =
          { text := "Error executing suggestion. Please try again."
            modelUsed := "error" }) ∧
      (∀ r, po = .ok r → (r.text = none ∨ r.text = some "") →
        (executeSuggestionA sugg history lastInput po).text =
          "No response generated.")) ∧
    ((executeSuggestionB sugg history lastInput provider).1.text ≠ "" ∧
      (∀ e, provider 0 = .error e →
        (executeSuggestionB sugg history lastInput provider).1 =
          { text := "Error executing suggestion. Please try again."
            modelUsed := "error" }) ∧
      (∀ r fc e, provider 0 = .ok r → r.functionCall = some fc →
        fc.name = "searchDrive" → provider 1 = .error e →
        (executeSuggestionB sugg history lastInput provider).1 =
          { text := "Error executing suggestion. Please try again."
            modelUsed := "error" }) ∧
      (∀ r, provider 0 = .ok r → r.functionCall = none →
        (r.text = none ∨ r.text = some "") →
        (executeSuggestionB sugg history lastInput provider).1.text =
          "No response generated.")) := by
  constructor
  · refine ⟨?_, fun e he => ?_, fun r hr ht => ?_⟩
    · rcases po with e | r
      · simp [executeSuggestionA]
      · simpa [executeSuggestionA] using
          jsOr_ne_empty r.text "No response generated." (by decide)
    · simp [executeSuggestionA, he]
    · rcases ht with ht | ht <;> simp [executeSuggestionA, hr, jsOr, ht]
  · refine ⟨?_, fun e he => ?_, fun r fc e hr hfc hn h1 => ?_, fun r hr hfc ht => ?_⟩
    · rcases hp0 : provider 0 with e | r
      · simp [executeSuggestionB, hp0]
      · rcases hfc : r.functionCall with _ | fc
        · simpa [executeSuggestionB, hp0, hfc] using
            jsOr_ne_empty r.text "No response generated." (by decide)
        · by_cases hn : fc.name = "searchDrive"
          · rcases hp1 : provider 1 with e1 | r1
            · simp [executeSuggestionB, hp0, hfc, hn, hp1]
            · simpa [executeSuggestionB, hp0, hfc, hn, hp1] using
                jsOr_ne_empty r1.text "Error processing tool result." (by decide)
          · simpa [executeSuggestionB, hp0, hfc, hn] using
              jsOr_ne_empty r.text "No response generated." (by decide)
    · simp [executeSuggestionB, he]
    · simp [executeSuggestionB, hr, hfc, hn, h1]
    · rcases ht with ht | ht <;> simp [executeSuggestionB, hr, hfc, jsOr, ht]

/-- Witness for C3: a provider that fails on every call, and a provider that
answers with an empty text, at concrete inputs. -/
theorem executor_never_raises_witness :
    (executeSuggestionA stdSuggestion [] "hi" (.error "network down") =
      { text := "Error executing suggestion. Please try again."
        modelUsed := "error" }) ∧
    ((executeSuggestionB stdSuggestion [] "hi" (fun _ => .error "network down")).1 =
      { text := "Error executing suggestion. Please try again."
        modelUsed := "error" }) ∧
    (executeSuggestionA stdSuggestion [] "hi" (.ok { text := some "" })).text =
      "No response generated." :=
  ⟨((executor_never_raises stdSuggestion [] "hi" (.error "network down")
      (fun _ => .error "network down")).1.2.1 "network down" rfl),
   ((executor_never_raises stdSuggestion [] "hi" (.error "network down")
      (fun _ => .error "network down")).2.2.1 "network down" rfl),
   ((executor_never_raises stdSuggestion [] "hi" (.ok { text := some "" })
      (fun _ => .error "network down")).1.2.2 { text := some "" } rfl
      (Or.inr rfl))⟩

lemma extract_foldl_eq (cs : List GroundingChunk) (acc : List SourceUrl) :
    cs.foldl (fun acc chunk =>
      match chunk.web with
      | none => acc
      | some w =>
        match w.uri with
        | none => acc
        | some u =>
          if u = "" then acc
          else acc ++ [{ title := jsOr w.title "Source", uri := u }]) acc =
    acc ++ cs.filterMap specCitation := by
  induction cs generalizing acc with
  | nil => simp
  | cons c cs ih =>
    rcases c with ⟨_ | w⟩
    · simp [ih, specCitation]
    · rcases hw : w.uri with _ | u
      · simp [ih, specCitation, hw]
      · by_cases hu : u = "" <;> simp [ih, specCitation, hw, hu]

lemma extractSourceUrls_eq_filterMap (cs : List GroundingChunk) :
    extractSourceUrls (some cs) = cs.filterMap specCitation := by
  simpa using extract_foldl_eq cs []

/-- C4: revision A's citation extraction maps each grounding chunk with a
(truthy) uri to `{title: its title or the "Source" placeholder, uri: its
uri}`, drops every chunk lacking a uri, and reports an empty extraction as an
absent `sourceUrls` field rather than an empty list. -/
theorem citation_extraction (sugg : Suggestion) (history : List Message)
    (lastInput : String) (r : GenResponse) (cs : List GroundingChunk)
    (h : r.groundingChunks = some cs) :
    (cs.filterMap specCitation = [] →
      (executeSuggestionA sugg history lastInput (.ok r)).sourceUrls = none) ∧
    (cs.filterMap specCitation ≠ [] →
      (executeSuggestionA sugg history lastInput (.ok r)).sourceUrls =
        some (cs.filterMap specCitation)) := by
  have he := extractSourceUrls_eq_filterMap cs
  constructor
  · intro hempty
    simp [executeSuggestionA, h, he, hempty]
  · intro hne
    have : 0 < (cs.filterMap specCitation).length := List.length_pos.mpr hne
    simp [executeSuggestionA, h, he, this]

/-- Witness for C4: a response whose chunks are one full citation, one
title-less citation (placeholder title), one uri-less chunk (dropped) and one
web-less chunk (dropped); and a response whose only chunks are dropped,
yielding an absent field. -/
theorem citation_extraction_witness :
    (executeSuggestionA stdSuggestion [] "hi"
      (.ok { text := some "ok"
             groundingChunks := some
               [{ web := some { uri := some "https://a.example", title := some "A" } },
                { web := some { uri := some "https://b.example" } },
                { web := some { title := some "no uri" } },
                {}] })).sourceUrls =
      some [{ title := "A", uri := "https://a.example" },
            { title := "Source", uri := "https://b.example" }] ∧
    (executeSuggestionA stdSuggestion [] "hi"
      (.ok { text := some "ok"
             groundingChunks := some [{ web := some { title := some "no uri" } }] })).sourceUrls =
      none :=
  ⟨(citation_extraction stdSuggestion [] "hi" _
      [{ web := some { uri := some "https://a.example", title := some "A" } },
       { web := some { uri := some "https://b.example" } },
       { web := some { title := some "no uri" } },
       {}] rfl).2 (by decide),
   (citation_extraction stdSuggestion [] "hi" _
      [{ web := some { title := some "no uri" } }] rfl).1 (by decide)⟩

/-- C5: whenever revision B's first provider response carries the declared
retrieval function call, `executeSuggestion` issues exactly one follow-up
request — the task prompt with the synthesized tool result appended, and a
config exposing no tools — and returns the follow-up's text (with its own
fallback); no further request is issued regardless of what the follow-up
response contains, so a second tool hop is impossible. -/
theorem one_tool_hop (sugg : Suggestion) (history : List Message)
    (lastInput : String) (provider : Nat → Except String GenResponse)
    (r : GenResponse) (fc : FunctionCall)
    (h0 : provider 0 = .ok r) (hfc : r.functionCall = some fc)
    (hname : fc.name = "searchDrive") :
    (executeSuggestionB sugg history lastInput provider).2 =
      [{ model := (routeB sugg.type).2
         contents := taskPromptB sugg history lastInput
         config := (routeB sugg.type).1 },
       { model := (routeB sugg.type).2
         contents := taskPromptB sugg history lastInput ++ followUpSuffix
         config := followUpConfig sugg.type }] ∧
    (executeSuggestionB sugg history lastInput provider).2.length = 2 ∧
    (followUpConfig sugg.type).tools = none ∧
    (∀ fu, provider 1 = .ok fu →
      (executeSuggestionB sugg history lastInput provider).1 =
        { text := jsOr fu.text "Error processing tool result."
          modelUsed := (routeB sugg.type).2 }) := by
  refine ⟨?_, ?_, rfl, fun fu h1 => ?_⟩
  · rcases h1 : provider 1 with e | fu <;>
      simp [executeSuggestionB, h0, hfc, hname, h1]
  · rcases h1 : provider 1 with e | fu <;>
      simp [executeSuggestionB, h0, hfc, hname, h1]
  · simp [executeSuggestionB, h0, hfc, hname, h1]

/-- Witness for C5: a provider whose first and second responses both request
the retrieval tool — still exactly two requests are issued, and the result is
the follow-up's text. -/
theorem one_tool_hop_witness :
    (executeSuggestionB stdSuggestion [] "hi" fcProvider).2.length = 2 ∧
    (executeSuggestionB stdSuggestion [] "hi" fcProvider).1 =
      { text := "grounded answer", modelUsed := "gemini-2.5-flash" } :=
  ⟨(one_tool_hop stdSuggestion [] "hi" fcProvider
      { text := some "grounded answer", functionCall := some { name := "searchDrive" } }
      { name := "searchDrive" } rfl rfl rfl).2.1,
   (one_tool_hop stdSuggestion [] "hi" fcProvider
      { text := some "grounded answer", functionCall := some { name := "searchDrive" } }
      { name := "searchDrive" } rfl rfl rfl).2.2.2
      { text := some "grounded answer", functionCall := some { name := "searchDrive" } }
      rfl⟩

/-- C10 (implicit): the synthesized standard-reply suggestion of the
engine-off path has type `Expand`, which both revisions route to the
fast-tier configuration with retrieval tools enabled (not the plain
`Clarify` path); in revision B such an execution can therefore itself take
the single tool hop, as the concrete all-function-call provider shows. -/
theorem std_reply_is_expand_with_tools :
    stdSuggestion.type = "Expand" ∧
    routeA stdSuggestion.type = flashSearchRowA ∧
    routeB stdSuggestion.type = flashDriveRowB ∧
    (routeA stdSuggestion.type).1.tools = some [Tool.googleSearch] ∧
    (routeB stdSuggestion.type).1.tools =
      some [Tool.functionDeclarations ["searchDrive"]] ∧
    (routeA stdSuggestion.type).1.thinkingBudget = none ∧
    (routeB stdSuggestion.type).1.thinkingBudget = none ∧
    (executeSuggestionB stdSuggestion [] "hi" fcProvider).2.length = 2 :=
  ⟨rfl, rfl, rfl, rfl, rfl, rfl, rfl, rfl⟩

/-- C1 counterexample: a provider payload that conforms to `analysisSchema`
yet carries two suggestions of one type; `analyzeContext` succeeds and
returns it unchanged, so a successful analysis need not carry exactly five
pairwise-distinct suggestion types. -/
theorem five_distinct_suggestions_cex :
    conformsAnalysisSchema shortAnalysis = true ∧
    analyzeContext (.parsed shortAnalysis) = .ok shortAnalysis ∧
    ¬(shortAnalysis.suggestions.length = 5 ∧
      (shortAnalysis.suggestions.map (fun sg => sg.type)).Nodup) := by
  refine ⟨by decide, rfl, ?_⟩
  rintro ⟨h5, -⟩
  simp [shortAnalysis] at h5

/-- C1 amended: a successful `analyzeContext` call returns the provider's
parsed payload unchanged, and when that payload conforms to the response
schema every suggestion's type is drawn from the six-member category set;
the count of exactly five and the pairwise distinctness of types are not
enforced by the code or the schema, so they hold only when the provider's
payload happens to satisfy them. -/
theorem analyze_passthrough (r : AnalysisResult)
    (h : conformsAnalysisSchema r = true) :
    analyzeContext (.parsed r) = .ok r ∧
    ∀ sg ∈ r.suggestions, suggestionTypeEnum.contains sg.type = true := by
  refine ⟨rfl, fun sg hsg => ?_⟩
  have := (Bool.and_eq_true _ _).mp h
  exact (List.all_eq_true.mp this.2) sg hsg

/-- Witness for the amended C1 at the concrete conforming payload. -/
theorem analyze_passthrough_witness :
    analyzeContext (.parsed shortAnalysis) = .ok shortAnalysis ∧
    ∀ sg ∈ shortAnalysis.suggestions,
      suggestionTypeEnum.contains sg.type = true :=
  analyze_passthrough shortAnalysis (by decide)

/-- C6: selecting a suggestion clears `currentSuggestions` and sets
`isExecuting` in the very first state write of the handler — before any
executor call — and every engine state written during the handler keeps the
suggestion list empty, so a duplicate selection on the same set is
impossible. -/
theorem selection_clears_suggestions (s : AppState) (sugg : Suggestion)
    (o : Except String GenResponse) :
    (handleSuggestionClick s sugg o).2.head? =
      some (.stateSet
        { s.engineState with isExecuting := true, currentSuggestions := [] }) ∧
    ∀ es, AppEvent.stateSet es ∈ (handleSuggestionClick s sugg o).2 →
      es.currentSuggestions = [] := by
  constructor
  · rcases hms : s.messages.getLast? with _ | lastMsg <;>
      simp [handleSuggestionClick, hms, setES, addLog]
  · intro es hmem
    rcases hms : s.messages.getLast? with _ | lastMsg <;>
      simp [handleSuggestionClick, hms, setES, addLog] at hmem <;>
      rcases hmem with rfl | rfl | rfl | rfl | rfl <;> rfl

/-- Witness for C6: clicking on the initial (empty-conversation) state; the
first event is the state write with `isExecuting` set and the suggestion
set cleared, and that written state has an empty suggestion list. -/
theorem selection_clears_suggestions_witness :
    (handleSuggestionClick initialAppState clarifySuggestion (.error "down")).2.head? =
      some (.stateSet
        { initialAppState.engineState with
            isExecuting := true, currentSuggestions := [] }) ∧
    ({ initialAppState.engineState with
        isExecuting := true, currentSuggestions := [] } :
      EngineState).currentSuggestions = [] :=
  ⟨(selection_clears_suggestions initialAppState clarifySuggestion (.error "down")).1,
   (selection_clears_suggestions initialAppState clarifySuggestion (.error "down")).2
     _ (by decide)⟩

/-- C7: every analysis failure mode surfaces as an error of `analyzeContext`,
and the caller's recovery is local: `isAnalyzing` returns to `false` with
`isExecuting` untouched, the suggestion set stays empty, the conversation
store is unchanged, exactly one info entry and one warning entry are
appended to the log, the analyzer was consulted exactly once (no retry), and
the executor is never invoked. -/
theorem analysis_failure_local_recovery (s : AppState) (m : Message)
    (o : AnalysisOutcome) (err : String)
    (h : analyzeContext o = .error err) :
    (∀ msg, analyzeContext (.unreachable msg) = .error msg) ∧
    analyzeContext .noText = .error "No analysis generated" ∧
    (∀ raw, analyzeContext (.unparsable raw) = .error "Unexpected token in JSON") ∧
    (processWithEngine s m o).1.engineState.isAnalyzing = false ∧
    (processWithEngine s m o).1.engineState.isExecuting =
      s.engineState.isExecuting ∧
    (processWithEngine s m o).1.engineState.currentSuggestions = [] ∧
    (processWithEngine s m o).1.messages = s.messages ∧
    (∃ e1 e2, (processWithEngine s m o).1.engineState.logs =
        s.engineState.logs ++ [e1, e2] ∧ e1.type = "info" ∧
        e2.type = "warning" ∧ e2.message = "Analysis failed: " ++ err) ∧
    analyzeCalls (processWithEngine s m o).2 = 1 ∧
    execCalls (processWithEngine s m o).2 = [] := by
  refine ⟨fun msg => rfl, rfl, fun raw => rfl, ?_, ?_, ?_, ?_, ?_, ?_, ?_⟩
  · simp [processWithEngine, h, setES, addLog]
  · simp [processWithEngine, h, setES, addLog]
  · simp [processWithEngine, h, setES, addLog]
  · simp [processWithEngine, h, setES, addLog]
  · refine ⟨{ id := toString s.nextId, timestamp := 0
              message := "Spore detected. Initiating substrate analysis..."
              type := "info" },
            { id := toString (s.nextId + 1), timestamp := 0
              message := "Analysis failed: " ++ err, type := "warning" },
            ?_, rfl, rfl, rfl⟩
    simp [processWithEngine, h, setES, addLog]
  · simp [processWithEngine, h, setES, addLog, analyzeCalls]
  · simp [processWithEngine, h, setES, addLog, execCalls]

/-- Witness for C7: an empty provider answer on the initial state. -/
theorem analysis_failure_local_recovery_witness :
    (processWithEngine initialAppState
      { id := "m0", role := "user", content := "hi", timestamp := 0 }
      .noText).1.engineState.isAnalyzing = false ∧
    (processWithEngine initialAppState
      { id := "m0", role := "user", content := "hi", timestamp := 0 }
      .noText).1.engineState.currentSuggestions = [] ∧
    analyzeCalls (processWithEngine initialAppState
      { id := "m0", role := "user", content := "hi", timestamp := 0 }
      .noText).2 = 1 :=
  ⟨(analysis_failure_local_recovery initialAppState
      { id := "m0", role := "user", content := "hi", timestamp := 0 }
      .noText "No analysis generated" rfl).2.2.2.1,
   (analysis_failure_local_recovery initialAppState
      { id := "m0", role := "user", content := "hi", timestamp := 0 }
      .noText "No analysis generated" rfl).2.2.2.2.2.1,
   (analysis_failure_local_recovery initialAppState
      { id := "m0", role := "user", content := "hi", timestamp := 0 }
      .noText "No analysis generated" rfl).2.2.2.2.2.2.2.2.1⟩

/-- C9: a non-blank input submitted while the engine is toggled off and no
execution is in flight never reaches the analyzer: the executor is invoked
exactly once, with the synthesized standard-reply suggestion, and exactly
one model message (carrying the executor's text) is appended after the user
message. -/
theorem send_engine_off (s : AppState) (input : String)
    (aOut : AnalysisOutcome) (eOut : Except String GenResponse)
    (h1 : (jsTrim input == "") = false)
    (h2 : s.engineState.isExecuting = false) :
    ∃ userMsg modelMsg : Message,
      userMsg.role = "user" ∧ userMsg.content = input ∧
      modelMsg.role = "model" ∧
      modelMsg.content = (executeSuggestionA stdSuggestion s.messages input eOut).text ∧
      (handleSendMessage s input false aOut eOut).1.messages =
        s.messages ++ [userMsg, modelMsg] ∧
      [userMsg, modelMsg].countP (fun mm => mm.role == "model") = 1 ∧
      execCalls (handleSendMessage s input false aOut eOut).2 = [stdSuggestion] ∧
      analyzeCalls (handleSendMessage s input false aOut eOut).2 = 0 := by
  refine ⟨{ id := toString s.nextId, role := "user", content := input, timestamp := 0 },
    { id := toString (s.nextId + 1), role := "model"
      content := (executeSuggestionA stdSuggestion s.messages input eOut).text
      timestamp := 0
      metadata := some
        { modelUsed := some (executeSuggestionA stdSuggestion s.messages input eOut).modelUsed
          sourceUrls := (executeSuggestionA stdSuggestion s.messages input eOut).sourceUrls } },
    rfl, rfl, rfl, rfl, ?_, by simp, ?_, ?_⟩ <;>
    simp [handleSendMessage, h1, h2, setES, addLog, execCalls, analyzeCalls]

/-- Witness for C9: sending `"hi"` from the initial state with the engine
off and a failing provider. -/
theorem send_engine_off_witness :
    ∃ userMsg modelMsg : Message,
      userMsg.role = "user" ∧ userMsg.content = "hi" ∧
      modelMsg.role = "model" ∧
      modelMsg.content =
        (executeSuggestionA stdSuggestion initialAppState.messages "hi"
          (.error "down")).text ∧
      (handleSendMessage initialAppState "hi" false .noText (.error "down")).1.messages =
        initialAppState.messages ++ [userMsg, modelMsg] ∧
      [userMsg, modelMsg].countP (fun mm => mm.role == "model") = 1 ∧
      execCalls (handleSendMessage initialAppState "hi" false .noText
        (.error "down")).2 = [stdSuggestion] ∧
      analyzeCalls (handleSendMessage initialAppState "hi" false .noText
        (.error "down")).2 = 0 :=
  send_engine_off initialAppState "hi" .noText (.error "down") (by decide) rfl

lemma logPatterns_flags (ps : List String) (s : AppState) :
    ((logPatterns s ps).1.engineState.isExecuting = s.engineState.isExecuting ∧
      (logPatterns s ps).1.engineState.isAnalyzing = s.engineState.isAnalyzing ∧
      (logPatterns s ps).1.engineState.currentSuggestions =
        s.engineState.currentSuggestions ∧
      (logPatterns s ps).1.messages = s.messages) ∧
    ∀ es, AppEvent.stateSet es ∈ (logPatterns s ps).2 →
      es.isExecuting = s.engineState.isExecuting := by
  induction ps generalizing s with
  | nil => simp [logPatterns]
  | cons p ps ih =>
    obtain ⟨⟨f1, f2, f3, f4⟩, fmem⟩ := ih (addLog s ("Pattern: " ++ p) "pattern").1
    refine ⟨⟨?_, ?_, ?_, ?_⟩, ?_⟩
    · simpa [logPatterns, addLog] using f1
    · simpa [logPatterns, addLog] using f2
    · simpa [logPatterns, addLog] using f3
    · simpa [logPatterns, addLog] using f4
    · intro es hmem
      simp only [logPatterns, List.mem_cons] at hmem
      rcases hmem with h | h
      · simp only [addLog] at h
        cases h
        rfl
      · simpa [addLog] using fmem es h

lemma processWithEngine_inv (s : AppState) (m : Message) (o : AnalysisOutcome) :
    ((processWithEngine s m o).1.engineState.isAnalyzing = false ∧
      (processWithEngine s m o).1.engineState.isExecuting =
        s.engineState.isExecuting) ∧
    ∀ es, AppEvent.stateSet es ∈ (processWithEngine s m o).2 →
      es.isExecuting = s.engineState.isExecuting := by
  rcases ho : analyzeContext o with err | analysis
  · refine ⟨⟨?_, ?_⟩, ?_⟩
    · simp [processWithEngine, ho, setES, addLog]
    · simp [processWithEngine, ho, setES, addLog]
    · intro es hmem
      simp [processWithEngine, ho, setES, addLog] at hmem
      rcases hmem with rfl | rfl | rfl | rfl <;> rfl
  · obtain ⟨⟨f1, f2, f3, f4⟩, fmem⟩ :=
      logPatterns_flags analysis.patternsDetected
        (addLog ((setES s (fun es =>
          { es with isAnalyzing := true, currentSuggestions := [] })).1)
          "Spore detected. Initiating substrate analysis..." "info").1
    simp only [setES, addLog] at f1 f2 f3 f4 fmem
    refine ⟨⟨?_, ?_⟩, ?_⟩
    · simp [processWithEngine, ho, setES, addLog]
    · simp only [processWithEngine, ho, setES, addLog]
      simpa using f1
    · intro es hmem
      simp only [processWithEngine, ho, setES, addLog] at hmem
      rcases List.mem_append.mp hmem with h12 | h4
      · rcases List.mem_append.mp h12 with h3 | hp
        · simp at h3
          rcases h3 with rfl | rfl <;> rfl
        · simpa using fmem es hp
      · simp at h4
        rcases h4 with rfl | rfl | rfl | rfl <;> simpa using f1

lemma handleSuggestionClick_inv (s : AppState) (sugg : Suggestion)
    (o : Except String GenResponse) (hA : s.engineState.isAnalyzing = false) :
    ((handleSuggestionClick s sugg o).1.engineState.isAnalyzing = false ∧
      (handleSuggestionClick s sugg o).1.engineState.isExecuting = false) ∧
    ∀ es, AppEvent.stateSet es ∈ (handleSuggestionClick s sugg o).2 →
      es.isAnalyzing = false := by
  refine ⟨⟨?_, ?_⟩, ?_⟩
  · rcases hms : s.messages.getLast? with _ | lastMsg <;>
      simp [handleSuggestionClick, hms, setES, addLog, hA]
  · rcases hms : s.messages.getLast? with _ | lastMsg <;>
      simp [handleSuggestionClick, hms, setES, addLog]
  · intro es hmem
    rcases hms : s.messages.getLast? with _ | lastMsg <;>
      simp [handleSuggestionClick, hms, setES, addLog] at hmem <;>
      rcases hmem with rfl | rfl | rfl | rfl | rfl <;> simpa using hA

lemma handleSendMessage_inv (s : AppState) (input : String) (active : Bool)
    (aOut : AnalysisOutcome) (eOut : Except String GenResponse)
    (hA : s.engineState.isAnalyzing = false)
    (hE : s.engineState.isExecuting = false) :
    ((handleSendMessage s input active aOut eOut).1.engineState.isAnalyzing = false ∧
      (handleSendMessage s input active aOut eOut).1.engineState.isExecuting = false) ∧
    ∀ es, AppEvent.stateSet es ∈ (handleSendMessage s input active aOut eOut).2 →
      ¬(es.isAnalyzing = true ∧ es.isExecuting = true) := by
  by_cases htrim : jsTrim input = ""
  · constructor
    · constructor <;> simp [handleSendMessage, htrim, hA, hE]
    · intro es hmem
      simp [handleSendMessage, htrim] at hmem
  · rcases hb : active with _ | _
    · -- engine off: the executing phase opens and closes around the executor
      refine ⟨⟨?_, ?_⟩, ?_⟩
      · simp [handleSendMessage, htrim, hE, hb, setES, hA]
      · simp [handleSendMessage, htrim, hE, hb, setES]
      · intro es hmem
        simp [handleSendMessage, htrim, hE, hb, setES] at hmem
        rcases hmem with rfl | rfl <;> simp [hA]
    · -- engine on: the analysis pipeline runs on the appended state
      obtain ⟨⟨f1, f2⟩, fmem⟩ :=
        processWithEngine_inv
          { s with nextId := s.nextId + 1
                   messages := s.messages ++
                     [{ id := toString s.nextId, role := "user", content := input
                        timestamp := 0 }] }
          { id := toString s.nextId, role := "user", content := input
            timestamp := 0 } aOut
      refine ⟨⟨?_, ?_⟩, ?_⟩
      · simp only [handleSendMessage, hb]
        simpa [htrim, hE] using f1
      · simp only [handleSendMessage, hb]
        simpa [htrim, hE] using f2
      · intro es hmem
        simp [handleSendMessage, hb, htrim, hE] at hmem
        have hfe : es.isExecuting = s.engineState.isExecuting := by
          simpa using fmem es (by simpa using hmem)
        rw [hE] at hfe
        rintro ⟨-, hex⟩
        rw [hex] at hfe
        exact Bool.noConfusion hfe

lemma step_inv (s : AppState) (op : Op)
    (hA : s.engineState.isAnalyzing = false)
    (hE : s.engineState.isExecuting = false) :
    ((step s op).1.engineState.isAnalyzing = false ∧
      (step s op).1.engineState.isExecuting = false) ∧
    ∀ es, AppEvent.stateSet es ∈ (step s op).2 →
      ¬(es.isAnalyzing = true ∧ es.isExecuting = true) := by
  rcases op with ⟨input, active, aOut, eOut⟩ | ⟨sugg, eOut⟩
  · exact handleSendMessage_inv s input active aOut eOut hA hE
  · obtain ⟨⟨f1, f2⟩, fmem⟩ := handleSuggestionClick_inv s sugg eOut hA
    refine ⟨⟨f1, f2⟩, fun es hmem => ?_⟩
    have := fmem es hmem
    simp [step] at hmem ⊢
    rw [this]
    simp

lemma run_inv (ops : List Op) (s : AppState)
    (hA : s.engineState.isAnalyzing = false)
    (hE : s.engineState.isExecuting = false) :
    ∀ es, AppEvent.stateSet es ∈ run s ops →
      ¬(es.isAnalyzing = true ∧ es.isExecuting = true) := by
  induction ops generalizing s with
  | nil => intro es hmem; simp [run] at hmem
  | cons op ops ih =>
    intro es hmem
    obtain ⟨⟨f1, f2⟩, fmem⟩ := step_inv s op hA hE
    simp only [run, List.mem_append] at hmem
    rcases hmem with h | h
    · exact fmem es h
    · exact ih (step s op).1 f1 f2 es h

/-- C8: in every engine state written during any sequence of pipeline
operations from the initial state — input submission, analysis completion or
failure, suggestion selection, execution completion or failure —
`isAnalyzing` and `isExecuting` are never both true. -/
theorem phases_mutually_exclusive (ops : List Op) (es : EngineState)
    (h : AppEvent.stateSet es ∈ run initialAppState ops) :
    ¬(es.isAnalyzing = true ∧ es.isExecuting = true) :=
  run_inv ops initialAppState rfl rfl es h

/-- Witness for C8: the trace of a suggestion click from the initial state
contains the state that opens the executing phase; it does not have both
flags set. -/
theorem phases_mutually_exclusive_witness :
    AppEvent.stateSet
      { isActive := true, isAnalyzing := false, isExecuting := true
        logs := [], currentSuggestions := [] } ∈
      run initialAppState [Op.click clarifySuggestion (.error "down")] ∧
    ¬(({ isActive := true, isAnalyzing := false, isExecuting := true
         logs := [], currentSuggestions := [] } : EngineState).isAnalyzing = true ∧
      ({ isActive := true, isAnalyzing := false, isExecuting := true
         logs := [], currentSuggestions := [] } : EngineState).isExecuting = true) :=
  ⟨by decide,
   phases_mutually_exclusive [Op.click clarifySuggestion (.error "down")] _ (by decide)⟩

end Suggest
